import Mathlib

/-!
Verification of `backend/scripts/convert_stl_to_fbx.py` (the Mesh Converter
script).  The script runs inside a 3D-content host: it slices `sys.argv`
after the `"--"` separator, takes the first two remaining entries as source
and destination paths, clears the scene (select all, delete selected), then
loads the STL via the host importer, exports the scene as a binary GLB via
the host exporter, prints a success message, and finally checks whether the
destination file exists, printing either its size in megabytes (two decimal
places) or an "output file not found" message.

The embedding below is parametric in the mesh type `M` and in a `Host`
record supplying the two format-specific capabilities the script calls but
does not implement (STL import, glTF export).  A run is recorded as an event
trace together with an `Except` outcome, so ordering, error propagation and
console output can all be stated.
-/

namespace Holodraft

/-- Raw file contents, as a byte list. -/
abbrev Bytes := List Nat

/-- The filesystem: a map from path to file contents (`none` = no file). -/
abbrev FS := String → Option Bytes

/-- Errors a run of the script can end with.  `valueError` is Python's
`ValueError` from `argv.index("--")` when the separator is absent,
`indexError` is the out-of-range subscript `argv[0]`/`argv[1]`,
`importError` / `exportError` are failures of the host capabilities. -/
inductive ScriptError
  | valueError
  | indexError
  | importError
  | exportError
  deriving DecidableEq, Repr

/-- Console messages the script prints, kept structured: the success line
(`"✅ Successfully converted {stl} to {glb}"`), the size line
(`"📦 GLB file size: {size:.2f} MB"`, carried as a count of hundredths of a
megabyte), and the `"❌ Output file not found!"` line. -/
inductive Msg
  | successMsg (src dst : String)
  | sizeMsg (centiMB : Nat)
  | notFoundMsg
  deriving DecidableEq, Repr

/-- Observable events of a run: scene clear, an import attempt on a path, an
export attempt on a path (carrying the scene contents handed to the
exporter), and a console print. -/
inductive Event (M : Type)
  | evClear
  | evImport (path : String)
  | evExport (path : String) (scene : List M)
  | evPrint (msg : Msg)
  deriving DecidableEq, Repr

/-- The scene: objects paired with their selection flag, as manipulated by
`bpy.ops.object.select_all` / `bpy.ops.object.delete`. -/
abbrev Scene (M : Type) := List (M × Bool)

/-- `bpy.ops.object.select_all(action='SELECT')`: mark every object in the
scene as selected. -/
def selectAll {M : Type} (s : Scene M) : Scene M :=
  s.map (fun o => (o.1, true))

/-- `bpy.ops.object.delete(use_global=False)`: remove the selected objects
from the scene. -/
def deleteSelected {M : Type} (s : Scene M) : Scene M :=
  s.filter (fun o => !o.2)

/-- The scene-reset step of the script: select all objects, then delete the
selected ones. -/
def clearScene {M : Type} (s : Scene M) : Scene M :=
  deleteSelected (selectAll s)

/-- Objects held by the scene, without their selection flags. -/
def sceneMeshes {M : Type} (s : Scene M) : List M :=
  s.map (fun o => o.1)

/-- The two host capabilities the script calls: `bpy.ops.wm.stl_import`
(given the contents found at the source path, or `none` when the file is
absent, it either parses a list of meshes or fails) and
`bpy.ops.export_scene.gltf` with `export_format='GLB'` (given the scene
contents, the destination path and the filesystem, it either returns the
updated filesystem or fails). -/
structure Host (M : Type) where
  stlImport : Option Bytes → Except Unit (List M)
  gltfExport : List M → String → FS → Except Unit FS

/-- `argv[argv.index("--") + 1:]`: the suffix of the argument list after the
first `"--"`, or `none` (Python's `ValueError`) when no separator occurs. -/
def afterSep : List String → Option (List String)
  | [] => none
  | x :: xs => if x = "--" then some xs else afterSep xs

/-- Lines 5–9 of the script: slice `argv` after the `"--"` separator and
subscript the first two entries as `stl_path` and `glb_path`. -/
def parseArgs (argv : List String) : Except ScriptError (String × String) :=
  match afterSep argv with
  | none => .error .valueError
  | some [] => .error .indexError
  | some [_] => .error .indexError
  | some (a :: b :: _) => .ok (a, b)

/-- Round-half-to-even division of naturals: `num / den` rounded to the
nearest integer, ties to the even neighbour.  This is how CPython's `:.2f`
renders the (exactly representable) dyadic value `n / 2^20`. -/
def natRoundHalfEven (num den : Nat) : Nat :=
  let q := num / den
  let r := num % den
  if 2 * r < den then q
  else if den < 2 * r then q + 1
  else if q % 2 = 0 then q else q + 1

/-- Line 24–25 of the script: `os.path.getsize(glb_path) / (1024 * 1024)`
formatted with `:.2f`, expressed as a count of hundredths of a megabyte. -/
def reportedCentiMB (byteSize : Nat) : Nat :=
  natRoundHalfEven (100 * byteSize) (1024 * 1024)

/-- The spec's wording of the size report: `byte_size / 1048576` rounded to
two decimal places, likewise expressed in hundredths of a megabyte. -/
def specReportCentiMB (byteSize : Nat) : Nat :=
  natRoundHalfEven (100 * byteSize) 1048576

/-- Outcome of a run: on success the final filesystem and scene. -/
abbrev RunResult (M : Type) := List (Event M) × Except ScriptError (FS × Scene M)

/-- The body of the script, given the parsed source and destination paths:
clear the scene, import the STL, export the scene to GLB, print the success
message, then check the destination file and print either its size or the
not-found message. -/
def runBody {M : Type} (host : Host M) (stl glb : String) (fs : FS)
    (s : Scene M) : RunResult M :=
  let s1 := clearScene s
  match host.stlImport (fs stl) with
  | .error _ => ([Event.evClear, Event.evImport stl], .error .importError)
  | .ok meshes =>
    let s2 : Scene M := s1 ++ meshes.map (fun m => (m, true))
    match host.gltfExport (sceneMeshes s2) glb fs with
    | .error _ =>
      ([Event.evClear, Event.evImport stl,
        Event.evExport glb (sceneMeshes s2)], .error .exportError)
    | .ok fs2 =>
      let lastMsg : Msg :=
        match fs2 glb with
        | some bs => Msg.sizeMsg (reportedCentiMB bs.length)
        | none => Msg.notFoundMsg
      ([Event.evClear, Event.evImport stl, Event.evExport glb (sceneMeshes s2),
        Event.evPrint (Msg.successMsg stl glb), Event.evPrint lastMsg],
       .ok (fs2, s2))

/-- The whole script: parse the argument list, then run the conversion
pipeline.  An argument-parsing failure happens before any scene operation,
so its trace is empty. -/
def runScript {M : Type} (host : Host M) (argv : List String) (fs : FS)
    (s : Scene M) : RunResult M :=
  match parseArgs argv with
  | .error e => ([], .error e)
  | .ok (stl, glb) => runBody host stl glb fs s

/-- Modelled from the spec: the host exporter capability (§4.1 step 3, §6)
serializes the scene to the destination path as a binary single-file
container, so for every scene it succeeds and leaves a non-empty file at the
destination.  The exporter itself is external to the repository. -/
def ExporterWritesNonempty {M : Type} (host : Host M) : Prop :=
  ∀ (ms : List M) (p : String) (f : FS), ∃ f2,
    host.gltfExport ms p f = .ok f2 ∧ ∃ bs, f2 p = some bs ∧ bs ≠ []

/-- Modelled from the spec: the host exporter is a deterministic encoder
(§8 "deterministic geometry, deterministic encoder") whose only filesystem
side effect is the write at the destination path (§4.1 "Side effects:
filesystem write at `destination_path`"): it always succeeds, leaves
`enc ms` at the destination, and every other path untouched. -/
def ExporterWritesEncoding {M : Type} (host : Host M) (enc : List M → Bytes) : Prop :=
  ∀ (ms : List M) (p : String) (f : FS), ∃ f2,
    host.gltfExport ms p f = .ok f2 ∧ f2 p = some (enc ms) ∧
      ∀ q, q ≠ p → f2 q = f q

theorem clearScene_eq_nil {M : Type} (s : Scene M) : clearScene s = [] := by
  induction s with
  | nil => rfl
  | cons x xs ih =>
    simp [clearScene, selectAll, deleteSelected]

theorem sceneMeshes_imported {M : Type} (meshes : List M) :
    sceneMeshes (meshes.map (fun m => (m, true))) = meshes := by
  induction meshes with
  | nil => rfl
  | cons m ms ih =>
    simp only [sceneMeshes, List.map_cons] at ih ⊢
    rw [ih]

theorem afterSep_append (l r : List String) (hl : "--" ∉ l) :
    afterSep (l ++ "--" :: r) = some r := by
  induction l with
  | nil => simp [afterSep]
  | cons x xs ih =>
    have hx : x ≠ "--" := by
      intro h
      exact hl (by simp [h])
    have hxs : "--" ∉ xs := by
      intro h
      exact hl (by simp [h])
    rw [List.cons_append]
    show (if x = "--" then some (xs ++ "--" :: r) else afterSep (xs ++ "--" :: r)) = some r
    rw [if_neg hx]
    exact ih hxs

theorem afterSep_eq_none (argv : List String) (h : "--" ∉ argv) :
    afterSep argv = none := by
  induction argv with
  | nil => rfl
  | cons x xs ih =>
    have hx : x ≠ "--" := by
      intro hh
      exact h (by simp [hh])
    have hxs : "--" ∉ xs := by
      intro hh
      exact h (by simp [hh])
    show (if x = "--" then some xs else afterSep xs) = none
    rw [if_neg hx]
    exact ih hxs

/-- The full success path of the script: when the arguments parse, the STL
is imported and the export succeeds, the run is the five-event trace of
clear, then import, export, success print, and the size-or-not-found print
determined by the post-export existence check. -/
theorem runScript_success_eq {M : Type} (host : Host M) (argv : List String)
    (fs : FS) (s : Scene M) (stl glb : String) (meshes : List M) (fs2 : FS)
    (hp : parseArgs argv = .ok (stl, glb))
    (hi : host.stlImport (fs stl) = .ok meshes)
    (he : host.gltfExport meshes glb fs = .ok fs2) :
    runScript host argv fs s =
      ([Event.evClear, Event.evImport stl, Event.evExport glb meshes,
        Event.evPrint (Msg.successMsg stl glb),
        Event.evPrint (match fs2 glb with
          | some bs => Msg.sizeMsg (reportedCentiMB bs.length)
          | none => Msg.notFoundMsg)],
       .ok (fs2, meshes.map (fun m => (m, true)))) := by
  simp only [runScript, hp]
  simp only [runBody, clearScene_eq_nil, List.nil_append, hi,
    sceneMeshes_imported, he]

/-! Concrete hosts and filesystems used to instantiate the theorems. -/

/-- A filesystem holding a single source file at path `"a"`. -/
def fsA : FS := fun p => if p = "a" then some [7] else none

/-- A host whose importer accepts every present file (producing one mesh)
and whose exporter writes the two-byte file `[0, 0]` at the destination. -/
def hostOkWrite : Host Nat where
  stlImport := fun c =>
    match c with
    | some _ => .ok [1]
    | none => .error ()
  gltfExport := fun _ p f => .ok (fun q => if q = p then some [0, 0] else f q)

/-- A host whose exporter is mocked to succeed without writing anything:
the missing-output scenario of the spec. -/
def hostNoWrite : Host Nat where
  stlImport := fun c =>
    match c with
    | some _ => .ok [1]
    | none => .error ()
  gltfExport := fun _ _ f => .ok f

/-- A host whose importer rejects every input. -/
def hostFailImport : Host Nat where
  stlImport := fun _ => .error ()
  gltfExport := fun _ _ f => .ok f

/-- A host whose importer accepts exactly the source contents `[7]` and
rejects everything else — in particular the bytes `[0, 0]` its own exporter
writes, matching the spec's statement that content not in the source format
raises `ImportError`. -/
def hostStrict : Host Nat where
  stlImport := fun c =>
    match c with
    | some bs => if bs = [7] then .ok [1] else .error ()
    | none => .error ()
  gltfExport := fun _ p f => .ok (fun q => if q = p then some [0, 0] else f q)

/-- The filesystem after `hostOkWrite` (or `hostStrict`) exports to `"b"`
starting from `fsA`. -/
def fsAB : FS := fun q => if q = "b" then some [0, 0] else fsA q

/-- The filesystem after `hostStrict` exports to `"a"` starting from `fsA`:
the source file has been overwritten by the output. -/
def fsOverwritten : FS := fun q => if q = "a" then some [0, 0] else fsA q

theorem hostOkWrite_writesNonempty : ExporterWritesNonempty hostOkWrite :=
  fun ms p f =>
    ⟨fun q => if q = p then some [0, 0] else f q, rfl, [0, 0], by simp, by simp⟩

theorem hostOkWrite_writesEncoding :
    ExporterWritesEncoding hostOkWrite (fun _ => [0, 0]) :=
  fun ms p f =>
    ⟨fun q => if q = p then some [0, 0] else f q, rfl, by simp,
     fun q hq => by simp [hq]⟩

/-- C1: if, after the export step, the destination file does not exist, the
run reports the output-not-found condition instead of raising, and still
completes successfully (the outcome is `.ok`, not an error). -/
theorem C1_missing_output_reported {M : Type} (host : Host M)
    (argv : List String) (fs : FS) (s : Scene M) (stl glb : String)
    (meshes : List M) (fs2 : FS)
    (hp : parseArgs argv = .ok (stl, glb))
    (hi : host.stlImport (fs stl) = .ok meshes)
    (he : host.gltfExport meshes glb fs = .ok fs2)
    (hm : fs2 glb = none) :
    (runScript host argv fs s).2 = .ok (fs2, meshes.map (fun m => (m, true))) ∧
      Event.evPrint Msg.notFoundMsg ∈ (runScript host argv fs s).1 := by
  rw [runScript_success_eq host argv fs s stl glb meshes fs2 hp hi he]
  simp [hm]

theorem C1_witness :
    (runScript hostNoWrite ["--", "a", "b"] fsA ([] : Scene Nat)).2
        = .ok (fsA, [(1, true)]) ∧
      Event.evPrint Msg.notFoundMsg
        ∈ (runScript hostNoWrite ["--", "a", "b"] fsA ([] : Scene Nat)).1 :=
  C1_missing_output_reported hostNoWrite ["--", "a", "b"] fsA [] "a" "b" [1]
    fsA rfl rfl rfl rfl

/-- C2: for a destination file present after export with byte size `n`, the
reported megabyte value (in hundredths) is `n / 1048576` rounded to two
decimal places, and a 2,097,152-byte file is reported as exactly 2.00 MB
(200 hundredths). -/
theorem C2_size_report {M : Type} (host : Host M) (argv : List String)
    (fs : FS) (s : Scene M) (stl glb : String) (meshes : List M) (fs2 : FS)
    (bs : Bytes)
    (hp : parseArgs argv = .ok (stl, glb))
    (hi : host.stlImport (fs stl) = .ok meshes)
    (he : host.gltfExport meshes glb fs = .ok fs2)
    (hm : fs2 glb = some bs) :
    Event.evPrint (Msg.sizeMsg (reportedCentiMB bs.length))
        ∈ (runScript host argv fs s).1 ∧
      reportedCentiMB bs.length = specReportCentiMB bs.length ∧
      reportedCentiMB 2097152 = 200 := by
  refine ⟨?_, rfl, by decide⟩
  rw [runScript_success_eq host argv fs s stl glb meshes fs2 hp hi he]
  simp [hm]

theorem C2_witness :
    Event.evPrint (Msg.sizeMsg (reportedCentiMB 2))
        ∈ (runScript hostOkWrite ["--", "a", "b"] fsA ([] : Scene Nat)).1 ∧
      reportedCentiMB 2 = specReportCentiMB 2 ∧
      reportedCentiMB 2097152 = 200 :=
  C2_size_report hostOkWrite ["--", "a", "b"] fsA [] "a" "b" [1] fsAB [0, 0]
    rfl rfl rfl rfl

/-- C3: the clear step empties the scene whatever it held, so immediately
before the import the scene contains no objects, and the whole run never
depends on the scene state it started from: no object from a prior run or
pre-existing scene is carried into the import or the export. -/
theorem C3_scene_reset {M : Type} (host : Host M) (argv : List String)
    (fs : FS) (s t : Scene M) :
    clearScene s = [] ∧ runScript host argv fs s = runScript host argv fs t := by
  refine ⟨clearScene_eq_nil s, ?_⟩
  simp only [runScript]
  cases parseArgs argv with
  | error e => rfl
  | ok pq =>
    obtain ⟨stl, glb⟩ := pq
    simp only [runBody, clearScene_eq_nil]

/-- C4: when the host importer fails on the source file (missing,
unreadable, or not valid for its format), the run ends with the
`importError` outcome, unhandled, and the exporter capability is never
invoked: no export event occurs in the trace. -/
theorem C4_import_error_no_export {M : Type} (host : Host M)
    (argv : List String) (fs : FS) (s : Scene M) (stl glb : String) (e : Unit)
    (hp : parseArgs argv = .ok (stl, glb))
    (hi : host.stlImport (fs stl) = .error e) :
    runScript host argv fs s
        = ([Event.evClear, Event.evImport stl], .error .importError) ∧
      ∀ (p : String) (ms : List M),
        Event.evExport p ms ∉ (runScript host argv fs s).1 := by
  have h : runScript host argv fs s
      = ([Event.evClear, Event.evImport stl], .error .importError) := by
    simp only [runScript, hp]
    simp only [runBody, hi]
  refine ⟨h, ?_⟩
  rw [h]
  simp

theorem C4_witness :
    runScript hostFailImport ["--", "a", "b"] fsA ([] : Scene Nat)
        = ([Event.evClear, Event.evImport "a"], .error .importError) ∧
      ∀ (p : String) (ms : List Nat),
        Event.evExport p ms
          ∉ (runScript hostFailImport ["--", "a", "b"] fsA ([] : Scene Nat)).1 :=
  C4_import_error_no_export hostFailImport ["--", "a", "b"] fsA [] "a" "b" ()
    rfl rfl

/-- C5: on the success path the run is exactly the ordered trace of clear,
then import, export, success print, then the existence-check print; the success
message is emitted after the export and before the existence check, so it
appears even when the destination file turns out to be absent. -/
theorem C5_step_order {M : Type} (host : Host M) (argv : List String)
    (fs : FS) (s : Scene M) (stl glb : String) (meshes : List M) (fs2 : FS)
    (hp : parseArgs argv = .ok (stl, glb))
    (hi : host.stlImport (fs stl) = .ok meshes)
    (he : host.gltfExport meshes glb fs = .ok fs2) :
    runScript host argv fs s =
      ([Event.evClear, Event.evImport stl, Event.evExport glb meshes,
        Event.evPrint (Msg.successMsg stl glb),
        Event.evPrint (match fs2 glb with
          | some bs => Msg.sizeMsg (reportedCentiMB bs.length)
          | none => Msg.notFoundMsg)],
       .ok (fs2, meshes.map (fun m => (m, true)))) :=
  runScript_success_eq host argv fs s stl glb meshes fs2 hp hi he

theorem C5_witness :
    runScript hostNoWrite ["--", "a", "b"] fsA ([] : Scene Nat) =
      ([Event.evClear, Event.evImport "a", Event.evExport "b" [1],
        Event.evPrint (Msg.successMsg "a" "b"), Event.evPrint Msg.notFoundMsg],
       .ok (fsA, [(1, true)])) :=
  C5_step_order hostNoWrite ["--", "a", "b"] fsA [] "a" "b" [1] fsA rfl rfl rfl

/-- C6: for a valid source file (one the host importer parses), with the
host exporter behaving as the spec describes (serializing the scene to the
destination as a non-empty binary container), the run succeeds and the
destination file exists and is non-empty afterwards. -/
theorem C6_valid_source_nonempty_output {M : Type} (host : Host M)
    (argv : List String) (fs : FS) (s : Scene M) (stl glb : String)
    (meshes : List M)
    (hp : parseArgs argv = .ok (stl, glb))
    (hi : host.stlImport (fs stl) = .ok meshes)
    (hw : ExporterWritesNonempty host) :
    ∃ fs2 bs,
      (runScript host argv fs s).2
          = .ok (fs2, meshes.map (fun m => (m, true))) ∧
        fs2 glb = some bs ∧ bs ≠ [] := by
  obtain ⟨fs2, he, bs, hbs, hne⟩ := hw meshes glb fs
  refine ⟨fs2, bs, ?_, hbs, hne⟩
  rw [runScript_success_eq host argv fs s stl glb meshes fs2 hp hi he]

theorem C6_witness :
    ∃ fs2 bs,
      (runScript hostOkWrite ["--", "a", "b"] fsA ([] : Scene Nat)).2
          = .ok (fs2, [(1, true)]) ∧
        fs2 "b" = some bs ∧ bs ≠ [] :=
  C6_valid_source_nonempty_output hostOkWrite ["--", "a", "b"] fsA [] "a" "b"
    [1] rfl rfl hostOkWrite_writesNonempty

/-- C7 counterexample: calling the script twice with the same pair of
arguments does not always yield the same reported size.  With source and
destination both `"a"`, the first run succeeds and reports a size, but it
overwrites the source with GLB bytes the importer rejects, so the second
run fails at import with no size report at all. -/
theorem C7_counterexample :
    (runScript hostStrict ["--", "a", "a"] fsA ([] : Scene Nat)).2
        = .ok (fsOverwritten, [(1, true)]) ∧
      Event.evPrint (Msg.sizeMsg (reportedCentiMB 2))
        ∈ (runScript hostStrict ["--", "a", "a"] fsA ([] : Scene Nat)).1 ∧
      runScript hostStrict ["--", "a", "a"] fsOverwritten [(1, true)]
        = ([Event.evClear, Event.evImport "a"], .error .importError) :=
  ⟨rfl, by decide, rfl⟩

/-- C7 (amended): provided the destination path differs from the source
path, calling the script twice with the same arguments — on a host whose
exporter is a deterministic encoder writing only at the destination, as the
spec states — overwrites the destination and reports the same size both
times. -/
theorem C7_amended_deterministic {M : Type} (host : Host M)
    (argv : List String) (fs : FS) (s t : Scene M) (stl glb : String)
    (meshes : List M) (enc : List M → Bytes)
    (hne : stl ≠ glb)
    (hp : parseArgs argv = .ok (stl, glb))
    (hi : host.stlImport (fs stl) = .ok meshes)
    (hw : ExporterWritesEncoding host enc) :
    ∃ fs2 fs3,
      (runScript host argv fs s).2
          = .ok (fs2, meshes.map (fun m => (m, true))) ∧
        (runScript host argv fs2 t).2
          = .ok (fs3, meshes.map (fun m => (m, true))) ∧
        fs2 glb = some (enc meshes) ∧ fs3 glb = some (enc meshes) ∧
        Event.evPrint (Msg.sizeMsg (reportedCentiMB (enc meshes).length))
            ∈ (runScript host argv fs s).1 ∧
        Event.evPrint (Msg.sizeMsg (reportedCentiMB (enc meshes).length))
            ∈ (runScript host argv fs2 t).1 := by
  obtain ⟨fs2, he1, hout1, hloc1⟩ := hw meshes glb fs
  obtain ⟨fs3, he2, hout2, _⟩ := hw meshes glb fs2
  have hi2 : host.stlImport (fs2 stl) = .ok meshes := by
    rw [hloc1 stl hne]
    exact hi
  have h1 := runScript_success_eq host argv fs s stl glb meshes fs2 hp hi he1
  have h2 := runScript_success_eq host argv fs2 t stl glb meshes fs3 hp hi2 he2
  refine ⟨fs2, fs3, ?_, ?_, hout1, hout2, ?_, ?_⟩
  · rw [h1]
  · rw [h2]
  · rw [h1]
    simp [hout1]
  · rw [h2]
    simp [hout2]

theorem C7_amended_witness :
    ∃ fs2 fs3,
      (runScript hostOkWrite ["--", "a", "b"] fsA ([] : Scene Nat)).2
          = .ok (fs2, [(1, true)]) ∧
        (runScript hostOkWrite ["--", "a", "b"] fs2 ([] : Scene Nat)).2
          = .ok (fs3, [(1, true)]) ∧
        fs2 "b" = some [0, 0] ∧ fs3 "b" = some [0, 0] ∧
        Event.evPrint (Msg.sizeMsg (reportedCentiMB 2))
            ∈ (runScript hostOkWrite ["--", "a", "b"] fsA ([] : Scene Nat)).1 ∧
        Event.evPrint (Msg.sizeMsg (reportedCentiMB 2))
            ∈ (runScript hostOkWrite ["--", "a", "b"] fs2 ([] : Scene Nat)).1 :=
  C7_amended_deterministic hostOkWrite ["--", "a", "b"] fsA [] [] "a" "b" [1]
    (fun _ => [0, 0]) (by decide) rfl rfl hostOkWrite_writesEncoding

/-- C8: the inputs are exactly the two positional arguments after the
`"--"` separator: parsing yields the first and second entries after the
first separator as the source and destination paths, and the run is the
same as with the bare argument list `["--", source, destination]` — no
other argument is recognized. -/
theorem C8_cli_two_positionals {M : Type} (host : Host M) (l : List String)
    (a b : String) (rest : List String) (fs : FS) (s : Scene M)
    (hl : "--" ∉ l) :
    parseArgs (l ++ "--" :: a :: b :: rest) = .ok (a, b) ∧
      runScript host (l ++ "--" :: a :: b :: rest) fs s
        = runScript host ["--", a, b] fs s := by
  have hp : parseArgs (l ++ "--" :: a :: b :: rest) = .ok (a, b) := by
    simp only [parseArgs, afterSep_append l (a :: b :: rest) hl]
  have hp2 : parseArgs ["--", a, b] = .ok (a, b) := rfl
  refine ⟨hp, ?_⟩
  simp only [runScript, hp, hp2]

theorem C8_witness :
    parseArgs (["blender", "-b"] ++ "--" :: "a" :: "b" :: ["x"])
        = .ok ("a", "b") ∧
      runScript hostOkWrite (["blender", "-b"] ++ "--" :: "a" :: "b" :: ["x"])
          fsA ([] : Scene Nat)
        = runScript hostOkWrite ["--", "a", "b"] fsA [] :=
  C8_cli_two_positionals hostOkWrite ["blender", "-b"] "a" "b" ["x"] fsA []
    (by decide)

/-- C9: without a `"--"` separator the run fails with `ValueError`; with a
separator followed by fewer than two arguments it fails with `IndexError`;
in both cases the trace is empty, so the failure happens before the scene
is touched (no clear, import, or export event). -/
theorem C9_parse_failures {M : Type} (host : Host M) (argv : List String)
    (fs : FS) (s : Scene M) :
    ("--" ∉ argv → runScript host argv fs s = ([], .error .valueError)) ∧
      (∀ l r, argv = l ++ "--" :: r → "--" ∉ l → r.length < 2 →
        runScript host argv fs s = ([], .error .indexError)) := by
  constructor
  · intro h
    simp only [runScript, parseArgs, afterSep_eq_none argv h]
  · intro l r hargv hl hr
    subst hargv
    rcases r with _ | ⟨x, _ | ⟨y, t⟩⟩
    · simp only [runScript, parseArgs, afterSep_append l [] hl]
    · simp only [runScript, parseArgs, afterSep_append l [x] hl]
    · simp only [List.length_cons] at hr
      omega

theorem C9_witness :
    runScript hostOkWrite ["convert.py"] fsA ([] : Scene Nat)
        = ([], .error .valueError) ∧
      runScript hostOkWrite ["--", "onlyone"] fsA ([] : Scene Nat)
        = ([], .error .indexError) :=
  ⟨(C9_parse_failures hostOkWrite ["convert.py"] fsA []).1 (by decide),
   (C9_parse_failures hostOkWrite ["--", "onlyone"] fsA []).2 [] ["onlyone"]
     rfl (by decide) (by decide)⟩

/-- C10: two invocations agreeing on the first two arguments after the
`"--"` separator behave identically: any trailing arguments beyond the
first two are ignored and have no effect on the run. -/
theorem C10_trailing_args_ignored {M : Type} (host : Host M)
    (l : List String) (a b : String) (rest rest2 : List String) (fs : FS)
    (s : Scene M) (hl : "--" ∉ l) :
    runScript host (l ++ "--" :: a :: b :: rest) fs s
      = runScript host (l ++ "--" :: a :: b :: rest2) fs s := by
  have h1 : parseArgs (l ++ "--" :: a :: b :: rest) = .ok (a, b) := by
    simp only [parseArgs, afterSep_append l (a :: b :: rest) hl]
  have h2 : parseArgs (l ++ "--" :: a :: b :: rest2) = .ok (a, b) := by
    simp only [parseArgs, afterSep_append l (a :: b :: rest2) hl]
  simp only [runScript, h1, h2]

theorem C10_witness :
    runScript hostOkWrite (["blender"] ++ "--" :: "a" :: "b" :: []) fsA
        ([] : Scene Nat)
      = runScript hostOkWrite
          (["blender"] ++ "--" :: "a" :: "b" :: ["x", "y"]) fsA [] :=
  C10_trailing_args_ignored hostOkWrite ["blender"] "a" "b" [] ["x", "y"]
    fsA [] (by decide)

end Holodraft
